import Mathlib

/-!
Verification of the BankStream authentication core.

Shallow embedding of `core_apps/user_auth/models.py` (the `User` model's
OTP / lockout methods), `core_apps/user_auth/views.py` (login, OTP
verification and token refresh endpoints) and the policy configuration in
`bankStream/settings/base.py`.

Conventions of the embedding:
- Timestamps and durations are integers (seconds); `timezone.now()` becomes
  an explicit `now : Int` argument.
- The policy constants `settings.LOGIN_ATTEMPTS`, `settings.LOCKOUT_DURATION`
  and `settings.OTP_EXPIRATION` are defined in a settings module outside the
  sources at hand, so they are carried as an explicit `Settings` record and
  the theorems quantify over them.
- Methods that mutate `self` and `save()` become functions `User → ... → User`
  (or pairs when they also return a value).
- A Python expression that raises (comparing `None` with a `datetime`) is
  embedded as `Option`: `none` models the raised `TypeError`.
- Fire-and-forget side effects (`send_account_locked_email`, `send_otp_email`,
  logging) carry no state in this core and are dropped.
-/

namespace BankStream

/-- Policy constants read from the Django `settings` object
(`LOGIN_ATTEMPTS`, `LOCKOUT_DURATION`, `OTP_EXPIRATION`).  They live in a
settings module outside `base.py`; the spec gives the examples 5 attempts,
30 minutes lockout, 5-10 minutes OTP validity.  Durations are in seconds. -/
structure Settings where
  LOGIN_ATTEMPTS : Nat
  LOCKOUT_DURATION : Int
  OTP_EXPIRATION : Int
deriving Repr, DecidableEq

/-- `User.AccountStatus` (models.py lines 82-91): `ACTIVE` or `LOCKED`. -/
inductive AccountStatus where
  | active
  | locked
deriving Repr, DecidableEq

/-- The authentication-relevant fields of the `User` model
(models.py lines 109-129).  `last_failed_login` and `otp_expiry_time` are
nullable timestamps; `otp` is a string whose cleared form is `""`
(Django `CharField(blank=True)`). -/
structure User where
  email : String
  account_status : AccountStatus
  failed_login_attempts : Nat
  last_failed_login : Option Int
  otp : String
  otp_expiry_time : Option Int
deriving Repr, DecidableEq

instance : Inhabited User :=
  ⟨{ email := "", account_status := .active, failed_login_attempts := 0,
     last_failed_login := none, otp := "", otp_expiry_time := none }⟩

/-- `User.set_otp` (models.py lines 136-149): stores the code and sets
`otp_expiry_time = timezone.now() + settings.OTP_EXPIRATION`, then saves. -/
def set_otp (cfg : Settings) (u : User) (otp : String) (now : Int) : User :=
  { u with otp := otp, otp_expiry_time := some (now + cfg.OTP_EXPIRATION) }

/-- `User.verify_otp` (models.py lines 151-169):
`if self.otp == otp and self.otp_expiry_time > timezone.now(): clear both,
return True; return False`.  Python evaluates the conjunction left to right:
when `self.otp == otp` holds but `otp_expiry_time` is `None`, the comparison
`None > timezone.now()` raises `TypeError`, embedded here as `none`. -/
def verify_otp (u : User) (otp : String) (now : Int) : Option (Bool × User) :=
  if u.otp = otp then
    match u.otp_expiry_time with
    | none => none
    | some e =>
        if now < e then
          some (true, { u with otp := "", otp_expiry_time := none })
        else
          some (false, u)
  else
    some (false, u)

/-- `User.handle_failed_login_attempts` (models.py lines 171-190): increments
the counter, stamps `last_failed_login = now`, and when the new counter is
`>= settings.LOGIN_ATTEMPTS` sets the status to LOCKED (and sends the lockout
email, a stateless side effect). -/
def handle_failed_login_attempts (cfg : Settings) (u : User) (now : Int) : User :=
  let u1 := { u with failed_login_attempts := u.failed_login_attempts + 1,
                     last_failed_login := some now }
  if cfg.LOGIN_ATTEMPTS ≤ u1.failed_login_attempts then
    { u1 with account_status := .locked }
  else
    u1

/-- `User.reset_failed_login_attempts` (models.py lines 192-202): zeroes the
counter, clears the timestamp, sets status ACTIVE. -/
def reset_failed_login_attempts (u : User) : User :=
  { u with failed_login_attempts := 0, last_failed_login := none,
           account_status := .active }

/-- `User.unlock_account` (models.py lines 204-215): when the status is
LOCKED, set it ACTIVE, zero the counter and clear the timestamp; otherwise
do nothing. -/
def unlock_account (u : User) : User :=
  if u.account_status = .locked then
    { u with account_status := .active, failed_login_attempts := 0,
             last_failed_login := none }
  else
    u

/-- `User.is_locked_out` (models.py lines 217-237): on a LOCKED account,
when `last_failed_login` is set (truthy) and
`timezone.now() - last_failed_login > settings.LOCKOUT_DURATION`, unlock and
return False; otherwise return True.  On an ACTIVE account return False.
The property both answers and may mutate, so it returns `Bool × User`. -/
def is_locked_out (cfg : Settings) (u : User) (now : Int) : Bool × User :=
  if u.account_status = .locked then
    match u.last_failed_login with
    | some t =>
        if cfg.LOCKOUT_DURATION < now - t then
          (false, unlock_account u)
        else
          (true, u)
    | none => (true, u)
  else
    (false, u)

/-! ## View layer (`core_apps/user_auth/views.py`) -/

/-- The distinct response bodies produced by the authentication views.  Each
constructor stands for one literal payload of `views.py`. -/
inductive Body where
  /-- `{"error": "Invalid credentials. Please try again."}` (views.py 110-113). -/
  | invalidCredentials
  /-- `{"error": "You have exceeded the maximum number of login attempts.", ...}`
  (views.py 95-107). -/
  | maxAttemptsExceeded
  /-- `{"error": "Account is locked due to multiple failed login attempts. ..."}`
  (views.py 58-62 and 174-181). -/
  | accountLocked
  /-- `{"success": "OTP sent to your email. ...", "email": ...}` (views.py 70-76). -/
  | otpSent (email : String)
  /-- `{"error": "OTP is required"}` (views.py 160-163). -/
  | otpRequired
  /-- `{"error": "Invalid or expired OTP"}` (views.py 168-171). -/
  | invalidOrExpiredOtp
  /-- `{"success": "Login successful. ..."}` (views.py 189-195). -/
  | loginSuccess
deriving Repr, DecidableEq

/-- An HTTP response: status code, body, and the names of the cookies the
view sets on it (`set_auth_cookies`, views.py 22-45, sets `access`,
`refresh` and `logged_in`). -/
structure Response where
  status : Nat
  body : Body
  cookies : List String
deriving Repr, DecidableEq

/-- `CustomTokenCreateView._action` (views.py 53-76): runs after the djoser
serializer accepted the credentials (password matched).  If the user is
locked out, 403 with the locked body and no state change beyond what
`is_locked_out` itself did; otherwise reset the failure state, store a
freshly generated OTP (the generator's output is passed in as `otpCode`),
send it by email (stateless), and answer 200 with no cookies. -/
def tokenCreateAction (cfg : Settings) (u : User) (otpCode : String)
    (now : Int) : Response × User :=
  let p := is_locked_out cfg u now
  if p.1 then
    (⟨403, .accountLocked, []⟩, p.2)
  else
    let u2 := reset_failed_login_attempts p.2
    let u3 := set_otp cfg u2 otpCode now
    (⟨200, .otpSent u3.email, []⟩, u3)

/-- The failure path of `CustomTokenCreateView.post` (views.py 78-113): the
serializer rejected the credentials.  When a user with the submitted email
exists, record the failure; if the updated counter is `>=
settings.LOGIN_ATTEMPTS` answer 403, else the generic 400.  When no such
user exists, the same generic 400.  Returns the response and the (possibly
updated) user record. -/
def tokenCreatePostFailure (cfg : Settings) (mu : Option User)
    (now : Int) : Response × Option User :=
  match mu with
  | some u =>
      let u1 := handle_failed_login_attempts cfg u now
      if cfg.LOGIN_ATTEMPTS ≤ u1.failed_login_attempts then
        (⟨403, .maxAttemptsExceeded, []⟩, some u1)
      else
        (⟨400, .invalidCredentials, []⟩, some u1)
  | none => (⟨400, .invalidCredentials, []⟩, none)

/-- The ORM filter of `OTPVerifyView.post` (views.py 164-165):
`User.objects.filter(otp=otp, otp_expiry_time__gt=timezone.now())` — the
stored code equals the submission and the expiry is set and in the future
(`__gt` excludes NULL). -/
def otpMatches (code : String) (now : Int) (u : User) : Bool :=
  u.otp = code &&
    match u.otp_expiry_time with
    | some e => now < e
    | none => false

/-- Scan of the user table for `OTPVerifyView.post`: `.first()` takes the
first match; the matched record is updated in place in the table.  `none`
models an uncaught exception inside `verify_otp`. -/
def otpVerifyScan (cfg : Settings) (code : String) (now : Int) :
    List User → Option (Response × List User)
  | [] => some (⟨400, .invalidOrExpiredOtp, []⟩, [])
  | u :: rest =>
      if otpMatches code now u then
        let p := is_locked_out cfg u now
        if p.1 then
          some (⟨403, .accountLocked, []⟩, u :: rest)
        else
          match verify_otp p.2 code now with
          | none => none
          | some (_, u2) =>
              some (⟨200, .loginSuccess, ["access", "refresh", "logged_in"]⟩,
                    u2 :: rest)
      else
        match otpVerifyScan cfg code now rest with
        | none => none
        | some (r, rest') => some (r, u :: rest')

/-- `OTPVerifyView.post` (views.py 153-198): reject an empty submission
(`if not otp`), look the code up globally, reject when no unexpired match
exists, reject a locked-out match, otherwise consume the OTP
(`user.verify_otp(otp)`, result ignored by the view), issue a token pair and
set the `access`/`refresh`/`logged_in` cookies. -/
def otpVerifyPost (cfg : Settings) (users : List User) (code : String)
    (now : Int) : Option (Response × List User) :=
  if code = "" then
    some (⟨400, .otpRequired, []⟩, users)
  else
    otpVerifyScan cfg code now users

/-! ## Session token refresh (`CustomTokenRefreshView`, views.py 117-150)

`CustomTokenRefreshView.post` delegates validation and rotation to
`rest_framework_simplejwt`'s `TokenRefreshView`, configured by the
`SIMPLE_JWT` dict in `bankStream/settings/base.py` (lines 181-188):
`ACCESS_TOKEN_LIFETIME = 30 min`, `REFRESH_TOKEN_LIFETIME = 1 day`,
`ROTATE_REFRESH_TOKENS = True`.  `BLACKLIST_AFTER_ROTATION` is not set, so
it takes simplejwt's default `False`, and `rest_framework_simplejwt.token_blacklist`
is absent from `INSTALLED_APPS` (base.py 22-52), so no blacklist table
exists.  The embedding below reproduces simplejwt's documented refresh
semantics under exactly this configuration: a refresh token is valid iff it
is unexpired and (only when a blacklist is installed) not blacklisted; a
valid refresh yields a brand-new access/refresh pair with fresh token ids,
and the presented token is blacklisted only when `BLACKLIST_AFTER_ROTATION`
holds and the blacklist app is installed. -/

/-- `SIMPLE_JWT["ACCESS_TOKEN_LIFETIME"] = timedelta(minutes=30)` in seconds. -/
def ACCESS_TOKEN_LIFETIME : Int := 1800

/-- `SIMPLE_JWT["REFRESH_TOKEN_LIFETIME"] = timedelta(days=1)` in seconds. -/
def REFRESH_TOKEN_LIFETIME : Int := 86400

/-- `SIMPLE_JWT["ROTATE_REFRESH_TOKENS"] = True` (base.py line 185). -/
def ROTATE_REFRESH_TOKENS : Bool := true

/-- `BLACKLIST_AFTER_ROTATION` is absent from the `SIMPLE_JWT` dict, so
simplejwt uses its default, `False`. -/
def BLACKLIST_AFTER_ROTATION : Bool := false

/-- `rest_framework_simplejwt.token_blacklist` does not appear in
`INSTALLED_APPS` (base.py lines 22-52). -/
def tokenBlacklistInstalled : Bool := false

/-- A signed token, identified by its unique token id (`jti` claim) and
carrying its expiry timestamp.  Signature validity is implicit: only tokens
the server minted are ever presented in the theorems below. -/
structure Token where
  jti : Nat
  exp : Int
deriving Repr, DecidableEq

/-- Server-side token state: a counter from which fresh `jti`s are drawn and
the blacklist table (empty forever, since the app is not installed). -/
structure JwtState where
  nextJti : Nat
  blacklist : List Nat
deriving Repr, DecidableEq

/-- `RefreshError` — simplejwt raises `TokenError`/`InvalidToken` (HTTP 401)
on an expired or blacklisted refresh token; the spec calls this condition
`InvalidRefreshToken`. -/
inductive RefreshError where
  | invalidRefreshToken
deriving Repr, DecidableEq

/-- A refresh token verifies iff it is unexpired, and — only when the
blacklist app is installed — its `jti` is not blacklisted. -/
def refreshTokenValid (st : JwtState) (t : Token) (now : Int) : Bool :=
  decide (now < t.exp) &&
    !(tokenBlacklistInstalled && st.blacklist.contains t.jti)

/-- The refresh operation behind `CustomTokenRefreshView.post` under the
`SIMPLE_JWT` configuration of base.py: validate the presented refresh token;
on success mint a new access token, and because `ROTATE_REFRESH_TOKENS` is
true also mint a new refresh token; blacklist the presented token only if
`BLACKLIST_AFTER_ROTATION` and the blacklist app allow it.  Returns the new
state and the `(access, refresh)` pair, or the invalid-token error. -/
def tokenRefresh (st : JwtState) (t : Token) (now : Int) :
    Except RefreshError (JwtState × Token × Token) :=
  if refreshTokenValid st t now then
    let access : Token := ⟨st.nextJti, now + ACCESS_TOKEN_LIFETIME⟩
    if ROTATE_REFRESH_TOKENS then
      let newRefresh : Token := ⟨st.nextJti + 1, now + REFRESH_TOKEN_LIFETIME⟩
      let st' : JwtState :=
        { nextJti := st.nextJti + 2,
          blacklist :=
            if BLACKLIST_AFTER_ROTATION && tokenBlacklistInstalled then
              t.jti :: st.blacklist
            else
              st.blacklist }
      .ok (st', access, newRefresh)
    else
      .ok ({ st with nextJti := st.nextJti + 1 }, access, t)
  else
    .error .invalidRefreshToken

/-! ## Helper lemmas -/

/-- `unlock_account` never changes the email. -/
lemma unlock_account_email (u : User) : (unlock_account u).email = u.email := by
  unfold unlock_account
  split <;> rfl

/-- `handle_failed_login_attempts`, written as a single conditional. -/
lemma handle_failed_login_eq (cfg : Settings) (u : User) (now : Int) :
    handle_failed_login_attempts cfg u now =
      if cfg.LOGIN_ATTEMPTS ≤ u.failed_login_attempts + 1 then
        { u with failed_login_attempts := u.failed_login_attempts + 1,
                 last_failed_login := some now, account_status := .locked }
      else
        { u with failed_login_attempts := u.failed_login_attempts + 1,
                 last_failed_login := some now } := rfl

/-- `is_locked_out` answers either `true` with the user untouched, or
`false` with the user untouched, or `false` after an implicit unlock. -/
lemma is_locked_out_cases (cfg : Settings) (u : User) (now : Int) :
    is_locked_out cfg u now = (true, u) ∨
    is_locked_out cfg u now = (false, u) ∨
    is_locked_out cfg u now = (false, unlock_account u) := by
  unfold is_locked_out
  split
  · split
    · split
      · exact Or.inr (Or.inr rfl)
      · exact Or.inl rfl
    · exact Or.inl rfl
  · exact Or.inr (Or.inl rfl)

/-! ## Claims -/

/-- C1: on an account below the lockout threshold, a call to
`handle_failed_login_attempts` increments `failed_login_attempts` by exactly
one, sets `last_failed_login` to the current time, and flips
`account_status` to locked exactly when the post-increment count reaches
`settings.LOGIN_ATTEMPTS` — never below it, and the flip happens in the
same call that hits the threshold. -/
theorem handle_failed_login_locks_exactly_at_threshold
    (cfg : Settings) (u : User) (now : Int) :
    (handle_failed_login_attempts cfg u now).failed_login_attempts
        = u.failed_login_attempts + 1 ∧
    (handle_failed_login_attempts cfg u now).last_failed_login = some now ∧
    (u.account_status = .active →
      u.failed_login_attempts < cfg.LOGIN_ATTEMPTS →
      ((handle_failed_login_attempts cfg u now).account_status = .locked ↔
        u.failed_login_attempts + 1 = cfg.LOGIN_ATTEMPTS)) := by
  rw [handle_failed_login_eq]
  by_cases h : cfg.LOGIN_ATTEMPTS ≤ u.failed_login_attempts + 1
  · rw [if_pos h]
    exact ⟨rfl, rfl, fun _ hlt => ⟨fun _ => by omega, fun _ => rfl⟩⟩
  · rw [if_neg h]
    refine ⟨rfl, rfl, fun hact _ => ⟨?_, ?_⟩⟩
    · intro hc
      have hc' : u.account_status = AccountStatus.locked := hc
      rw [hact] at hc'
      exact absurd hc' (by simp)
    · intro hc
      exact absurd hc (by omega)

/-- Witness for C1 at the spec's example threshold 5: the fifth failure
(counter 4 → 5) locks the account. -/
theorem handle_failed_login_locks_exactly_at_threshold_witness :
    (handle_failed_login_attempts ⟨5, 1800, 600⟩
        ⟨"u@x.com", .active, 4, none, "", none⟩ 100).failed_login_attempts
          = 4 + 1 ∧
    (handle_failed_login_attempts ⟨5, 1800, 600⟩
        ⟨"u@x.com", .active, 4, none, "", none⟩ 100).last_failed_login
          = some 100 ∧
    ((handle_failed_login_attempts ⟨5, 1800, 600⟩
        ⟨"u@x.com", .active, 4, none, "", none⟩ 100).account_status
          = .locked ↔
      4 + 1 = 5) :=
  ⟨(handle_failed_login_locks_exactly_at_threshold ⟨5, 1800, 600⟩
      ⟨"u@x.com", .active, 4, none, "", none⟩ 100).1,
   (handle_failed_login_locks_exactly_at_threshold ⟨5, 1800, 600⟩
      ⟨"u@x.com", .active, 4, none, "", none⟩ 100).2.1,
   (handle_failed_login_locks_exactly_at_threshold ⟨5, 1800, 600⟩
      ⟨"u@x.com", .active, 4, none, "", none⟩ 100).2.2 rfl (by decide)⟩

/-- C2: on a locked account whose `last_failed_login` is set,
`is_locked_out` returns true and changes nothing while the elapsed time is
at most `settings.LOCKOUT_DURATION`; strictly after the duration it
implicitly unlocks (status active, counter 0, timestamp cleared) and
returns false.  On an active account it returns false and changes
nothing. -/
theorem is_locked_out_lazy_unlock
    (cfg : Settings) (u : User) (now t : Int) :
    (u.account_status = .locked → u.last_failed_login = some t →
      ((now - t ≤ cfg.LOCKOUT_DURATION →
          is_locked_out cfg u now = (true, u)) ∧
       (cfg.LOCKOUT_DURATION < now - t →
          is_locked_out cfg u now =
            (false, { u with account_status := .active,
                             failed_login_attempts := 0,
                             last_failed_login := none })))) ∧
    (u.account_status = .active → is_locked_out cfg u now = (false, u)) := by
  constructor
  · intro hst hlast
    constructor
    · intro hle
      have hd : ¬ (cfg.LOCKOUT_DURATION < now - t) := by omega
      simp [is_locked_out, hst, hlast, hd]
    · intro hgt
      simp [is_locked_out, hst, hlast, hgt, unlock_account]
  · intro hst
    simp [is_locked_out, hst]

/-- Witness for C2: locked at `t = 0` with a 1800-second lockout — still
locked at `now = 1800`, implicitly unlocked at `now = 1801`; an active
account is never locked out. -/
theorem is_locked_out_lazy_unlock_witness :
    is_locked_out ⟨5, 1800, 600⟩
        ⟨"u@x.com", .locked, 5, some 0, "", none⟩ 1800 =
      (true, ⟨"u@x.com", .locked, 5, some 0, "", none⟩) ∧
    is_locked_out ⟨5, 1800, 600⟩
        ⟨"u@x.com", .locked, 5, some 0, "", none⟩ 1801 =
      (false, ⟨"u@x.com", .active, 0, none, "", none⟩) ∧
    is_locked_out ⟨5, 1800, 600⟩
        ⟨"a@x.com", .active, 0, none, "", none⟩ 99 =
      (false, ⟨"a@x.com", .active, 0, none, "", none⟩) :=
  ⟨((is_locked_out_lazy_unlock ⟨5, 1800, 600⟩
      ⟨"u@x.com", .locked, 5, some 0, "", none⟩ 1800 0).1
        rfl rfl).1 (by decide),
   ((is_locked_out_lazy_unlock ⟨5, 1800, 600⟩
      ⟨"u@x.com", .locked, 5, some 0, "", none⟩ 1801 0).1
        rfl rfl).2 (by decide),
   (is_locked_out_lazy_unlock ⟨5, 1800, 600⟩
      ⟨"a@x.com", .active, 0, none, "", none⟩ 99 0).2 rfl⟩

/-- C10: a locked account with no `last_failed_login` timestamp is locked
out forever: for every current time `is_locked_out` answers true and
performs no unlock or any other state change. -/
theorem is_locked_out_locked_without_timestamp
    (cfg : Settings) (u : User) (now : Int)
    (hst : u.account_status = .locked)
    (hlast : u.last_failed_login = none) :
    is_locked_out cfg u now = (true, u) := by
  simp [is_locked_out, hst, hlast]

/-- Witness for C10 at a large elapsed time: still locked out. -/
theorem is_locked_out_locked_without_timestamp_witness :
    (⟨"u@x.com", .locked, 5, none, "", none⟩ : User).account_status
        = .locked ∧
    (⟨"u@x.com", .locked, 5, none, "", none⟩ : User).last_failed_login
        = none ∧
    is_locked_out ⟨5, 1800, 600⟩
      ⟨"u@x.com", .locked, 5, none, "", none⟩ 1000000000 =
      (true, ⟨"u@x.com", .locked, 5, none, "", none⟩) :=
  ⟨rfl, rfl,
   is_locked_out_locked_without_timestamp ⟨5, 1800, 600⟩
     ⟨"u@x.com", .locked, 5, none, "", none⟩ 1000000000 rfl rfl⟩

/-- C3: OTP codes are single-use.  For an identity holding a stored,
unexpired OTP, submitting that code to the verification endpoint succeeds
(200, session cookies set) and clears both `otp` and `otp_expiry_time` on
the stored identity; submitting the same code again fails with the generic
invalid-or-expired-OTP error; and a wrong-code call to `verify_otp` returns
false without consuming or altering the stored OTP fields. -/
theorem otp_single_use (cfg : Settings) (u : User) (c s : String)
    (e now now2 now3 : Int)
    (hc : c ≠ "") (hotp : u.otp = c) (hexp : u.otp_expiry_time = some e)
    (hfresh : now < e) (hact : u.account_status = .active) (hwrong : s ≠ c) :
    otpVerifyPost cfg [u] c now =
      some (⟨200, .loginSuccess, ["access", "refresh", "logged_in"]⟩,
            [{ u with otp := "", otp_expiry_time := none }]) ∧
    otpVerifyPost cfg [{ u with otp := "", otp_expiry_time := none }] c now2 =
      some (⟨400, .invalidOrExpiredOtp, []⟩,
            [{ u with otp := "", otp_expiry_time := none }]) ∧
    verify_otp u s now3 = some (false, u) := by
  have hmatch : otpMatches c now u = true := by
    simp [otpMatches, hotp, hexp, hfresh]
  have hlock : is_locked_out cfg u now = (false, u) := by
    simp [is_locked_out, hact]
  have hver : verify_otp u c now =
      some (true, { u with otp := "", otp_expiry_time := none }) := by
    simp [verify_otp, hotp, hexp, hfresh]
  refine ⟨?_, ?_, ?_⟩
  · simp [otpVerifyPost, hc, otpVerifyScan, hmatch, hlock, hver]
  · have hnm : otpMatches c now2
        { u with otp := "", otp_expiry_time := none } = false := by
      simp [otpMatches]
    simp [otpVerifyPost, hc, otpVerifyScan, hnm]
  · have hns : ¬ (u.otp = s) := by
      rw [hotp]
      exact fun h => hwrong h.symm
    simp [verify_otp, hns]

/-- Witness for C3 on a concrete identity holding code 123456. -/
theorem otp_single_use_witness :
    ("123456" : String) ≠ "" ∧
    (⟨"u@x.com", .active, 0, none, "123456", some 700⟩ : User).otp
        = "123456" ∧
    (⟨"u@x.com", .active, 0, none, "123456", some 700⟩ : User).otp_expiry_time
        = some 700 ∧
    (100 : Int) < 700 ∧
    (⟨"u@x.com", .active, 0, none, "123456", some 700⟩ : User).account_status
        = .active ∧
    ("999999" : String) ≠ "123456" ∧
    (otpVerifyPost ⟨5, 1800, 600⟩
        [⟨"u@x.com", .active, 0, none, "123456", some 700⟩] "123456" 100 =
      some (⟨200, .loginSuccess, ["access", "refresh", "logged_in"]⟩,
            [{ (⟨"u@x.com", .active, 0, none, "123456", some 700⟩ : User) with
                 otp := "", otp_expiry_time := none }]) ∧
     otpVerifyPost ⟨5, 1800, 600⟩
        [{ (⟨"u@x.com", .active, 0, none, "123456", some 700⟩ : User) with
             otp := "", otp_expiry_time := none }] "123456" 200 =
      some (⟨400, .invalidOrExpiredOtp, []⟩,
            [{ (⟨"u@x.com", .active, 0, none, "123456", some 700⟩ : User) with
                 otp := "", otp_expiry_time := none }]) ∧
     verify_otp ⟨"u@x.com", .active, 0, none, "123456", some 700⟩
        "999999" 100 =
      some (false, ⟨"u@x.com", .active, 0, none, "123456", some 700⟩)) :=
  ⟨by decide, rfl, rfl, by decide, rfl, by decide,
   otp_single_use ⟨5, 1800, 600⟩
     ⟨"u@x.com", .active, 0, none, "123456", some 700⟩ "123456" "999999"
     700 100 200 100 (by decide) rfl rfl (by decide) rfl (by decide)⟩

/-- C4 (code behavior at the failing input): on an identity whose OTP is
cleared (`otp = ""`, `otp_expiry_time = None`), `verify_otp ""` evaluates
`"" == "" and None > timezone.now()` and raises `TypeError` (embedded as
`none`) instead of returning False; for any non-empty submission it does
return False and leaves the identity unchanged, so a cleared OTP still
never validates. -/
theorem verify_otp_cleared_empty_submission_raises
    (u : User) (now : Int) (s : String)
    (hotp : u.otp = "") (hexp : u.otp_expiry_time = none) :
    verify_otp u "" now = none ∧
    (s ≠ "" → verify_otp u s now = some (false, u)) := by
  constructor
  · simp [verify_otp, hotp, hexp]
  · intro hs
    have hns : ¬ (u.otp = s) := by
      rw [hotp]
      exact fun h => hs h.symm
    simp [verify_otp, hns]

/-- Witness for C4's code behavior on a concrete cleared identity. -/
theorem verify_otp_cleared_empty_submission_raises_witness :
    verify_otp ⟨"u@x.com", .active, 0, none, "", none⟩ "" 100 = none ∧
    verify_otp ⟨"u@x.com", .active, 0, none, "", none⟩ "123456" 100 =
      some (false, ⟨"u@x.com", .active, 0, none, "", none⟩) :=
  ⟨(verify_otp_cleared_empty_submission_raises
      ⟨"u@x.com", .active, 0, none, "", none⟩ 100 "123456" rfl rfl).1,
   (verify_otp_cleared_empty_submission_raises
      ⟨"u@x.com", .active, 0, none, "", none⟩ 100 "123456" rfl rfl).2
     (by decide)⟩

/-- C5: `set_otp` overwrites `otp` and `otp_expiry_time` together in one
step (`otp_expiry_time = now + settings.OTP_EXPIRATION`), so a previously
issued code `c1 ≠ c2` no longer verifies after `c2` is issued; and
`verify_otp` also handles the two fields together — a successful
verification clears both, a failed one changes nothing. -/
theorem set_otp_overwrites_and_invalidates (cfg : Settings) (u : User)
    (c1 c2 s : String) (now now2 : Int) (hne : c1 ≠ c2) :
    (set_otp cfg u c2 now).otp = c2 ∧
    (set_otp cfg u c2 now).otp_expiry_time
        = some (now + cfg.OTP_EXPIRATION) ∧
    verify_otp (set_otp cfg u c2 now) c1 now2 =
        some (false, set_otp cfg u c2 now) ∧
    (∀ v v' : User, verify_otp v s now2 = some (true, v') →
        v'.otp = "" ∧ v'.otp_expiry_time = none) ∧
    (∀ v v' : User, verify_otp v s now2 = some (false, v') → v' = v) := by
  refine ⟨rfl, rfl, ?_, ?_, ?_⟩
  · have hns : ¬ ((set_otp cfg u c2 now).otp = c1) := by
      show ¬ (c2 = c1)
      exact fun h => hne h.symm
    simp [verify_otp, hns]
  · intro v v' h
    unfold verify_otp at h
    split at h
    · split at h
      · simp at h
      · split at h
        · simp only [Option.some.injEq, Prod.mk.injEq, true_and] at h
          rw [← h]
          exact ⟨rfl, rfl⟩
        · simp at h
    · simp at h
  · intro v v' h
    unfold verify_otp at h
    split at h
    · split at h
      · simp at h
      · split at h
        · simp at h
        · simp only [Option.some.injEq, Prod.mk.injEq, true_and] at h
          exact h.symm
    · simp only [Option.some.injEq, Prod.mk.injEq, true_and] at h
      exact h.symm

/-- Witness for C5: code 111111 stops verifying once 222222 is issued, and
the set/clear-together facts hold on concrete identities. -/
theorem set_otp_overwrites_and_invalidates_witness :
    (set_otp ⟨5, 1800, 600⟩
        ⟨"u@x.com", .active, 0, none, "111111", some 700⟩ "222222" 100).otp
          = "222222" ∧
    (set_otp ⟨5, 1800, 600⟩
        ⟨"u@x.com", .active, 0, none, "111111", some 700⟩
        "222222" 100).otp_expiry_time = some (100 + 600) ∧
    verify_otp (set_otp ⟨5, 1800, 600⟩
        ⟨"u@x.com", .active, 0, none, "111111", some 700⟩ "222222" 100)
        "111111" 150 =
      some (false, set_otp ⟨5, 1800, 600⟩
        ⟨"u@x.com", .active, 0, none, "111111", some 700⟩ "222222" 100) ∧
    ((⟨"v@x.com", .active, 0, none, "", none⟩ : User).otp = "" ∧
     (⟨"v@x.com", .active, 0, none, "", none⟩ : User).otp_expiry_time
        = none) ∧
    (⟨"w@x.com", .active, 0, none, "999999", some 700⟩ : User) =
      ⟨"w@x.com", .active, 0, none, "999999", some 700⟩ :=
  ⟨(set_otp_overwrites_and_invalidates ⟨5, 1800, 600⟩
      ⟨"u@x.com", .active, 0, none, "111111", some 700⟩
      "111111" "222222" "333333" 100 150 (by decide)).1,
   (set_otp_overwrites_and_invalidates ⟨5, 1800, 600⟩
      ⟨"u@x.com", .active, 0, none, "111111", some 700⟩
      "111111" "222222" "333333" 100 150 (by decide)).2.1,
   (set_otp_overwrites_and_invalidates ⟨5, 1800, 600⟩
      ⟨"u@x.com", .active, 0, none, "111111", some 700⟩
      "111111" "222222" "333333" 100 150 (by decide)).2.2.1,
   (set_otp_overwrites_and_invalidates ⟨5, 1800, 600⟩
      ⟨"u@x.com", .active, 0, none, "111111", some 700⟩
      "111111" "222222" "333333" 100 150 (by decide)).2.2.2.1
     ⟨"v@x.com", .active, 0, none, "333333", some 700⟩
     ⟨"v@x.com", .active, 0, none, "", none⟩ (by decide),
   (set_otp_overwrites_and_invalidates ⟨5, 1800, 600⟩
      ⟨"u@x.com", .active, 0, none, "111111", some 700⟩
      "111111" "222222" "333333" 100 150 (by decide)).2.2.2.2
     ⟨"w@x.com", .active, 0, none, "999999", some 700⟩
     ⟨"w@x.com", .active, 0, none, "999999", some 700⟩ (by decide)⟩

/-- C6: enumeration resistance.  A failed login that does not trigger a
lockout produces exactly the same response — status 400 with the one
generic invalid-credentials body — whether the email belongs to no identity
or to an existing identity whose password was wrong. -/
theorem login_failure_indistinguishable (cfg : Settings) (u : User)
    (now : Int)
    (hlt : u.failed_login_attempts + 1 < cfg.LOGIN_ATTEMPTS) :
    (tokenCreatePostFailure cfg (some u) now).1 =
      (tokenCreatePostFailure cfg none now).1 ∧
    (tokenCreatePostFailure cfg (some u) now).1 =
      ⟨400, .invalidCredentials, []⟩ := by
  have hu1 : handle_failed_login_attempts cfg u now =
      { u with failed_login_attempts := u.failed_login_attempts + 1,
               last_failed_login := some now } := by
    rw [handle_failed_login_eq, if_neg (by omega)]
  have hneg : ¬ (cfg.LOGIN_ATTEMPTS ≤ u.failed_login_attempts + 1) := by
    omega
  constructor
  · simp [tokenCreatePostFailure, hu1, hneg]
  · simp [tokenCreatePostFailure, hu1, hneg]

/-- Witness for C6: a user with one prior failure (2 < 5 after the
increment) gets the same generic 400 as an unknown email. -/
theorem login_failure_indistinguishable_witness :
    (⟨"u@x.com", .active, 1, none, "", none⟩ : User).failed_login_attempts
        + 1 < 5 ∧
    ((tokenCreatePostFailure ⟨5, 1800, 600⟩
        (some ⟨"u@x.com", .active, 1, none, "", none⟩) 50).1 =
      (tokenCreatePostFailure ⟨5, 1800, 600⟩ none 50).1 ∧
     (tokenCreatePostFailure ⟨5, 1800, 600⟩
        (some ⟨"u@x.com", .active, 1, none, "", none⟩) 50).1 =
      ⟨400, .invalidCredentials, []⟩) :=
  ⟨by decide,
   login_failure_indistinguishable ⟨5, 1800, 600⟩
     ⟨"u@x.com", .active, 1, none, "", none⟩ 50 (by decide)⟩

/-- C7: stage 3 of the login flow.  On password match (the serializer
accepted) and not locked out, the endpoint resets the failure state
(counter 0, timestamp cleared, status active), stores the freshly generated
OTP with `otp_expiry_time = now + settings.OTP_EXPIRATION`, and answers
200 with a pending-verification acknowledgment, no tokens and no
cookies. -/
theorem login_success_issues_otp_no_tokens (cfg : Settings) (u : User)
    (code : String) (now : Int)
    (h : (is_locked_out cfg u now).1 = false) :
    tokenCreateAction cfg u code now =
      (⟨200, .otpSent u.email, []⟩,
       { email := u.email, account_status := .active,
         failed_login_attempts := 0, last_failed_login := none,
         otp := code,
         otp_expiry_time := some (now + cfg.OTP_EXPIRATION) }) := by
  rcases is_locked_out_cases cfg u now with hE | hE | hE
  · rw [hE] at h
    exact absurd h (by simp)
  · simp [tokenCreateAction, hE, reset_failed_login_attempts, set_otp]
  · simp [tokenCreateAction, hE, reset_failed_login_attempts, set_otp,
      unlock_account_email]

/-- Witness for C7 on a concrete active user with prior failures. -/
theorem login_success_issues_otp_no_tokens_witness :
    (is_locked_out ⟨5, 1800, 600⟩
        ⟨"u@x.com", .active, 3, some 0, "", none⟩ 10).1 = false ∧
    tokenCreateAction ⟨5, 1800, 600⟩
        ⟨"u@x.com", .active, 3, some 0, "", none⟩ "123456" 10 =
      (⟨200, .otpSent "u@x.com", []⟩,
       { email := "u@x.com", account_status := .active,
         failed_login_attempts := 0, last_failed_login := none,
         otp := "123456", otp_expiry_time := some (10 + 600) }) :=
  ⟨by decide,
   login_success_issues_otp_no_tokens ⟨5, 1800, 600⟩
     ⟨"u@x.com", .active, 3, some 0, "", none⟩ "123456" 10 (by decide)⟩

/-- C8: stage 2 frame condition.  When the password matched but the user is
locked out, the endpoint answers 403 with the locked body and leaves the
identity exactly as it was: the counter is not reset, the timestamp is not
cleared, and no OTP is generated or stored. -/
theorem login_locked_gate_frame (cfg : Settings) (u : User) (code : String)
    (now : Int)
    (h : (is_locked_out cfg u now).1 = true) :
    tokenCreateAction cfg u code now = (⟨403, .accountLocked, []⟩, u) := by
  rcases is_locked_out_cases cfg u now with hE | hE | hE
  · simp [tokenCreateAction, hE]
  · rw [hE] at h
    exact absurd h (by simp)
  · rw [hE] at h
    exact absurd h (by simp)

/-- Witness for C8: a recently locked user stays untouched by a
correct-password login attempt. -/
theorem login_locked_gate_frame_witness :
    (is_locked_out ⟨5, 1800, 600⟩
        ⟨"u@x.com", .locked, 5, some 0, "", none⟩ 100).1 = true ∧
    tokenCreateAction ⟨5, 1800, 600⟩
        ⟨"u@x.com", .locked, 5, some 0, "", none⟩ "123456" 100 =
      (⟨403, .accountLocked, []⟩,
       ⟨"u@x.com", .locked, 5, some 0, "", none⟩) :=
  ⟨by decide,
   login_locked_gate_frame ⟨5, 1800, 600⟩
     ⟨"u@x.com", .locked, 5, some 0, "", none⟩ "123456" 100 (by decide)⟩

/-- C9, counterexample: the claim that a previously-rotated-out refresh
token fails with the invalid-token condition is false under the shipped
configuration.  Token `⟨0, 86400⟩` is rotated out by a successful refresh
at time 0, yet a second refresh presenting it at time 1 still succeeds,
because `BLACKLIST_AFTER_ROTATION` is unset (default false) and the
blacklist app is not installed. -/
theorem tokenRefresh_old_token_reusable_cex :
    tokenRefresh ⟨0, []⟩ ⟨0, 86400⟩ 0 =
      Except.ok (⟨2, []⟩, ⟨0, 1800⟩, ⟨1, 86400⟩) ∧
    tokenRefresh ⟨2, []⟩ ⟨0, 86400⟩ 1 ≠
      Except.error RefreshError.invalidRefreshToken := by
  refine ⟨rfl, ?_⟩
  intro h
  rw [show tokenRefresh ⟨2, []⟩ ⟨0, 86400⟩ 1 =
        Except.ok (⟨4, []⟩, ⟨2, 1801⟩, ⟨3, 86401⟩) from rfl] at h
  exact Except.noConfusion h

/-- C9, amended: every successful refresh issues a brand-new pair (the
access and refresh `jti`s are freshly drawn from the counter), but the
presented refresh token is not blacklisted and remains accepted by later
refresh calls until its natural expiry. -/
theorem tokenRefresh_rotates_but_old_token_reusable
    (st st' : JwtState) (t a r : Token) (now now2 : Int)
    (h : tokenRefresh st t now = .ok (st', a, r)) (h2 : now2 < t.exp) :
    a = ⟨st.nextJti, now + ACCESS_TOKEN_LIFETIME⟩ ∧
    r = ⟨st.nextJti + 1, now + REFRESH_TOKEN_LIFETIME⟩ ∧
    st' = ⟨st.nextJti + 2, st.blacklist⟩ ∧
    tokenRefresh st' t now2 =
      .ok (⟨st'.nextJti + 2, st'.blacklist⟩,
           ⟨st'.nextJti, now2 + ACCESS_TOKEN_LIFETIME⟩,
           ⟨st'.nextJti + 1, now2 + REFRESH_TOKEN_LIFETIME⟩) := by
  unfold tokenRefresh at h
  split at h
  · simp only [ROTATE_REFRESH_TOKENS, BLACKLIST_AFTER_ROTATION,
      tokenBlacklistInstalled, Bool.false_and, Bool.and_false] at h
    simp at h
    obtain ⟨h1, h2', h3⟩ := h
    subst h1
    subst h2'
    subst h3
    refine ⟨rfl, rfl, rfl, ?_⟩
    have hv : refreshTokenValid ⟨st.nextJti + 2, st.blacklist⟩ t now2
        = true := by
      simp [refreshTokenValid, tokenBlacklistInstalled, h2]
    simp [tokenRefresh, hv, ROTATE_REFRESH_TOKENS,
      BLACKLIST_AFTER_ROTATION, tokenBlacklistInstalled]
  · simp at h

/-- Witness for the amended C9 on the concrete rotation scenario. -/
theorem tokenRefresh_rotates_but_old_token_reusable_witness :
    tokenRefresh ⟨0, []⟩ ⟨0, 86400⟩ 0 =
      Except.ok (⟨2, []⟩, ⟨0, 1800⟩, ⟨1, 86400⟩) ∧
    (1 : Int) < (⟨0, 86400⟩ : Token).exp ∧
    ((⟨0, 1800⟩ : Token) = ⟨(⟨0, []⟩ : JwtState).nextJti,
        0 + ACCESS_TOKEN_LIFETIME⟩ ∧
     (⟨1, 86400⟩ : Token) = ⟨(⟨0, []⟩ : JwtState).nextJti + 1,
        0 + REFRESH_TOKEN_LIFETIME⟩ ∧
     (⟨2, []⟩ : JwtState) = ⟨(⟨0, []⟩ : JwtState).nextJti + 2,
        (⟨0, []⟩ : JwtState).blacklist⟩ ∧
     tokenRefresh ⟨2, []⟩ ⟨0, 86400⟩ 1 =
       .ok (⟨(⟨2, []⟩ : JwtState).nextJti + 2, (⟨2, []⟩ : JwtState).blacklist⟩,
            ⟨(⟨2, []⟩ : JwtState).nextJti, 1 + ACCESS_TOKEN_LIFETIME⟩,
            ⟨(⟨2, []⟩ : JwtState).nextJti + 1, 1 + REFRESH_TOKEN_LIFETIME⟩)) :=
  ⟨rfl, by decide,
   tokenRefresh_rotates_but_old_token_reusable ⟨0, []⟩ ⟨2, []⟩
     ⟨0, 86400⟩ ⟨0, 1800⟩ ⟨1, 86400⟩ 0 1 rfl (by decide)⟩

end BankStream
